import Mathlib

/-!
Shallow embedding of the TowerOps terraform provider
(`internal/provider/device_resource.go`, `internal/provider/site_resource.go`
and the embedded HTTP client) together with proofs about the reconciliation
engine: payload construction, response merging, the recreate-on-missing
recovery path of `Update`, delete behaviour, schema defaults and the JSON
envelope of the client calls.
-/

namespace TowerOps

/-- Tri-state terraform attribute value, mirroring
`terraform-plugin-framework`'s `types.String` / `types.Bool` / `types.Int64`:
a value is null, unknown, or a concrete value. -/
inductive TF (α : Type) where
  | null
  | unknown
  | value (a : α)
deriving DecidableEq, Repr

/-- `IsNull` of the framework: true exactly on the null state. -/
def TF.isNull {α : Type} : TF α → Bool
  | .null => true
  | _ => false

/-- `ValueString`: the held string, or the zero value `""` for null/unknown. -/
def TF.valueString : TF String → String
  | .value s => s
  | _ => ""

/-- `ValueBool`: the held bool, or `false` for null/unknown. -/
def TF.valueBool : TF Bool → Bool
  | .value b => b
  | _ => false

/-- `ValueInt64`: the held integer, or `0` for null/unknown. -/
def TF.valueInt : TF Int → Int
  | .value n => n
  | _ => 0

/-- Error taxonomy produced by `Client.doRequest` and the typed client calls:
`notFound` is the distinguished `ErrNotFound` for a 404; `apiErr` carries a
status and the decoded `error` message; `apiValidationErr` carries the decoded
field-message map; `apiRawErr` carries the undecodable raw body; `decodeErr`
is a malformed success body; `transportErr` is a connection-level failure. -/
inductive ClientErr where
  | notFound
  | apiErr (status : Nat) (msg : String)
  | apiValidationErr (status : Nat) (fields : List (String × String))
  | apiRawErr (status : Nat) (body : String)
  | decodeErr (msg : String)
  | transportErr (msg : String)
deriving DecidableEq, Repr

/-- `Error()` string of each client error, following the `fmt.Errorf`
formats in the Go client (`ErrNotFound` is `errors.New("resource not found")`). -/
def ClientErr.errString : ClientErr → String
  | .notFound => "resource not found"
  | .apiErr status msg => "API error (" ++ toString status ++ "): " ++ msg
  | .apiValidationErr status fields =>
      "API validation error (" ++ toString status ++ "): " ++ toString (repr fields)
  | .apiRawErr status body => "API error (" ++ toString status ++ "): " ++ body
  | .decodeErr msg => "failed to unmarshal response: " ++ msg
  | .transportErr msg => "request failed: " ++ msg

/-- The `Device` payload/response struct used by `DeviceResource`
(`device_resource.go`): Go pointer fields become `Option`, plain string
fields keep their zero value `""` when unset. -/
structure Device where
  id : String := ""
  siteID : Option String := none
  organizationID : Option String := none
  name : Option String := none
  ipAddress : String := ""
  description : Option String := none
  monitoringEnabled : Option Bool := none
  snmpEnabled : Option Bool := none
  snmpVersion : Option String := none
  snmpPort : Option Int := none
  snmpv3SecurityLevel : Option String := none
  snmpv3Username : Option String := none
  snmpv3AuthProtocol : Option String := none
  snmpv3AuthPassword : Option String := none
  snmpv3PrivProtocol : Option String := none
  snmpv3PrivPassword : Option String := none
  insertedAt : String := ""
deriving DecidableEq, Repr

/-- `DeviceResourceModel` (`device_resource.go`): the terraform state/plan
record, every attribute a tri-state value. -/
structure DeviceResourceModel where
  id : TF String := .null
  siteID : TF String := .null
  organizationID : TF String := .null
  name : TF String := .null
  ipAddress : TF String := .null
  description : TF String := .null
  monitoringEnabled : TF Bool := .null
  snmpEnabled : TF Bool := .null
  snmpVersion : TF String := .null
  snmpPort : TF Int := .null
  snmpv3SecurityLevel : TF String := .null
  snmpv3Username : TF String := .null
  snmpv3AuthProtocol : TF String := .null
  snmpv3AuthPassword : TF String := .null
  snmpv3PrivProtocol : TF String := .null
  snmpv3PrivPassword : TF String := .null
  insertedAt : TF String := .null
deriving DecidableEq, Repr

/-- `Site` struct of the client (`site_resource.go` embedded client). -/
structure Site where
  id : String := ""
  name : String := ""
  location : Option String := none
  snmpCommunity : Option String := none
  insertedAt : String := ""
deriving DecidableEq, Repr

/-- `SiteResourceModel` (`site_resource.go`). -/
structure SiteResourceModel where
  id : TF String := .null
  name : TF String := .null
  location : TF String := .null
  snmpCommunity : TF String := .null
  insertedAt : TF String := .null
deriving DecidableEq, Repr

/-- Payload construction shared verbatim by `DeviceResource.Create`
(lines 183-256) and `DeviceResource.Update` (lines 403-476): each optional
attribute is put into the payload exactly when it is not null, with the
framework zero value substituted for unknown values, as `ValueString` does. -/
def buildDevicePayload (d : DeviceResourceModel) : Device :=
  { ipAddress := d.ipAddress.valueString
    siteID := if d.siteID.isNull then none else some d.siteID.valueString
    organizationID :=
      if d.organizationID.isNull then none else some d.organizationID.valueString
    name := if d.name.isNull then none else some d.name.valueString
    description := if d.description.isNull then none else some d.description.valueString
    monitoringEnabled :=
      if d.monitoringEnabled.isNull then none else some d.monitoringEnabled.valueBool
    snmpEnabled := if d.snmpEnabled.isNull then none else some d.snmpEnabled.valueBool
    snmpVersion := if d.snmpVersion.isNull then none else some d.snmpVersion.valueString
    snmpPort := if d.snmpPort.isNull then none else some d.snmpPort.valueInt
    snmpv3SecurityLevel :=
      if d.snmpv3SecurityLevel.isNull then none else some d.snmpv3SecurityLevel.valueString
    snmpv3Username :=
      if d.snmpv3Username.isNull then none else some d.snmpv3Username.valueString
    snmpv3AuthProtocol :=
      if d.snmpv3AuthProtocol.isNull then none else some d.snmpv3AuthProtocol.valueString
    snmpv3AuthPassword :=
      if d.snmpv3AuthPassword.isNull then none else some d.snmpv3AuthPassword.valueString
    snmpv3PrivProtocol :=
      if d.snmpv3PrivProtocol.isNull then none else some d.snmpv3PrivProtocol.valueString
    snmpv3PrivPassword :=
      if d.snmpv3PrivPassword.isNull then none else some d.snmpv3PrivPassword.valueString }

/-- State merge after a successful `CreateDevice` in `DeviceResource.Create`
(lines 264-288): stores `id` and `inserted_at`, takes `site_id` and
`organization_id` from the response (clearing to null when absent), and takes
`name`, `monitoring_enabled`, `snmp_enabled` from the response only when
present; every other attribute keeps its planned value. -/
def mergeDeviceCreate (d : DeviceResourceModel) (created : Device) : DeviceResourceModel :=
  { d with
    id := .value created.id
    insertedAt := .value created.insertedAt
    siteID := match created.siteID with
      | some s => .value s
      | none => .null
    organizationID := match created.organizationID with
      | some s => .value s
      | none => .null
    name := match created.name with
      | some n => .value n
      | none => d.name
    monitoringEnabled := match created.monitoringEnabled with
      | some b => .value b
      | none => d.monitoringEnabled
    snmpEnabled := match created.snmpEnabled with
      | some b => .value b
      | none => d.snmpEnabled }

/-- State merge of `DeviceResource.Read` (lines 312-390): `site_id`,
`organization_id`, `name`, `description` and the six SNMPv3 attributes are
overwritten with the response value or cleared to null when absent;
`ip_address` and `inserted_at` are always overwritten; `monitoring_enabled`,
`snmp_enabled`, `snmp_version`, `snmp_port` are overwritten only when the
response carries them and otherwise keep the cached value; `id` is untouched. -/
def mergeDeviceRead (d : DeviceResourceModel) (device : Device) : DeviceResourceModel :=
  { d with
    siteID := match device.siteID with
      | some s => .value s
      | none => .null
    organizationID := match device.organizationID with
      | some s => .value s
      | none => .null
    ipAddress := .value device.ipAddress
    name := match device.name with
      | some n => .value n
      | none => .null
    insertedAt := .value device.insertedAt
    description := match device.description with
      | some s => .value s
      | none => .null
    monitoringEnabled := match device.monitoringEnabled with
      | some b => .value b
      | none => d.monitoringEnabled
    snmpEnabled := match device.snmpEnabled with
      | some b => .value b
      | none => d.snmpEnabled
    snmpVersion := match device.snmpVersion with
      | some s => .value s
      | none => d.snmpVersion
    snmpPort := match device.snmpPort with
      | some n => .value n
      | none => d.snmpPort
    snmpv3SecurityLevel := match device.snmpv3SecurityLevel with
      | some s => .value s
      | none => .null
    snmpv3Username := match device.snmpv3Username with
      | some s => .value s
      | none => .null
    snmpv3AuthProtocol := match device.snmpv3AuthProtocol with
      | some s => .value s
      | none => .null
    snmpv3AuthPassword := match device.snmpv3AuthPassword with
      | some s => .value s
      | none => .null
    snmpv3PrivProtocol := match device.snmpv3PrivProtocol with
      | some s => .value s
      | none => .null
    snmpv3PrivPassword := match device.snmpv3PrivPassword with
      | some s => .value s
      | none => .null }

/-- State merge of the recreate branch of `DeviceResource.Update`
(lines 487-520), run after the secondary `CreateDevice` succeeds: stores the
new `id`, `inserted_at`, `ip_address`, takes `site_id`/`organization_id`
from the response (clearing when absent), and takes the remaining echoed
fields only when present; SNMPv3 attributes are untouched. -/
def mergeDeviceRecreate (d : DeviceResourceModel) (created : Device) : DeviceResourceModel :=
  { d with
    id := .value created.id
    insertedAt := .value created.insertedAt
    ipAddress := .value created.ipAddress
    siteID := match created.siteID with
      | some s => .value s
      | none => .null
    organizationID := match created.organizationID with
      | some s => .value s
      | none => .null
    name := match created.name with
      | some n => .value n
      | none => d.name
    description := match created.description with
      | some s => .value s
      | none => d.description
    monitoringEnabled := match created.monitoringEnabled with
      | some b => .value b
      | none => d.monitoringEnabled
    snmpEnabled := match created.snmpEnabled with
      | some b => .value b
      | none => d.snmpEnabled
    snmpVersion := match created.snmpVersion with
      | some s => .value s
      | none => d.snmpVersion
    snmpPort := match created.snmpPort with
      | some n => .value n
      | none => d.snmpPort }

/-- State merge of the success path of `DeviceResource.Update`
(lines 528-596). -/
def mergeDeviceUpdate (d : DeviceResourceModel) (updated : Device) : DeviceResourceModel :=
  { d with
    ipAddress := .value updated.ipAddress
    siteID := match updated.siteID with
      | some s => .value s
      | none => .null
    organizationID := match updated.organizationID with
      | some s => .value s
      | none => .null
    name := match updated.name with
      | some n => .value n
      | none => d.name
    description := match updated.description with
      | some s => .value s
      | none => d.description
    monitoringEnabled := match updated.monitoringEnabled with
      | some b => .value b
      | none => d.monitoringEnabled
    snmpEnabled := match updated.snmpEnabled with
      | some b => .value b
      | none => d.snmpEnabled
    snmpVersion := match updated.snmpVersion with
      | some s => .value s
      | none => d.snmpVersion
    snmpPort := match updated.snmpPort with
      | some n => .value n
      | none => d.snmpPort
    snmpv3SecurityLevel := match updated.snmpv3SecurityLevel with
      | some s => .value s
      | none => .null
    snmpv3Username := match updated.snmpv3Username with
      | some s => .value s
      | none => .null
    snmpv3AuthProtocol := match updated.snmpv3AuthProtocol with
      | some s => .value s
      | none => .null
    snmpv3AuthPassword := match updated.snmpv3AuthPassword with
      | some s => .value s
      | none => .null
    snmpv3PrivProtocol := match updated.snmpv3PrivProtocol with
      | some s => .value s
      | none => .null
    snmpv3PrivPassword := match updated.snmpv3PrivPassword with
      | some s => .value s
      | none => .null }

/-- State merge of `SiteResource.Read` (lines 154-167): `name` and
`inserted_at` overwritten, `location` and `snmp_community` overwritten or
cleared to null when absent; `id` untouched. -/
def mergeSiteRead (d : SiteResourceModel) (site : Site) : SiteResourceModel :=
  { d with
    name := .value site.name
    insertedAt := .value site.insertedAt
    location := match site.location with
      | some s => .value s
      | none => .null
    snmpCommunity := match site.snmpCommunity with
      | some s => .value s
      | none => .null }

/-- One remote call issued through the client, recording the payload sent. -/
inductive Call where
  | createCall (payload : Device)
  | readCall (id : String)
  | updateCall (id : String) (payload : Device)
  | deleteCall (id : String)
deriving DecidableEq, Repr

/-- Whether a call is an update call (used to state that a payload is never
sent through `UpdateDevice`). -/
def Call.isUpdate : Call → Bool
  | .updateCall _ _ => true
  | _ => false

/-- A diagnostic, as produced by `resp.Diagnostics.AddError(summary, detail)`. -/
structure Diag where
  summary : String
  detail : String
deriving DecidableEq, Repr

/-- Outcome of one resource operation on a device: the remote calls issued in
order, the diagnostics raised, and the stored state after the operation
(`none` when the resource is absent from state). -/
structure DeviceOpResult where
  calls : List Call
  diags : List Diag
  state : Option DeviceResourceModel
deriving DecidableEq, Repr

/-- Outcome of one resource operation on a site. -/
structure SiteOpResult where
  calls : List Call
  diags : List Diag
  state : Option SiteResourceModel
deriving DecidableEq, Repr

/-- The remote endpoint as seen through the typed device client calls: for
each call shape, the outcome the server would return. -/
structure DeviceRemote where
  createResp : Device → Except ClientErr Device
  readResp : String → Except ClientErr Device
  updateResp : String → Device → Except ClientErr Device
  deleteResp : String → Option ClientErr

/-- The remote endpoint as seen through the typed site client calls. -/
structure SiteRemote where
  createResp : Site → Except ClientErr Site
  readResp : String → Except ClientErr Site
  updateResp : String → Site → Except ClientErr Site
  deleteResp : String → Option ClientErr

/-- `DeviceResource.Create` (lines 175-291): build the payload from the plan,
call `CreateDevice`; on error add a diagnostic and leave the stored state
untouched; on success merge the response and set the state. There is no
local validation step of any kind before the client call. -/
def deviceCreateOp (remote : DeviceRemote) (plan : DeviceResourceModel)
    (prior : Option DeviceResourceModel) : DeviceOpResult :=
  let payload := buildDevicePayload plan
  match remote.createResp payload with
  | .error e =>
      { calls := [.createCall payload]
        diags := [⟨"Failed to create device", e.errString⟩]
        state := prior }
  | .ok created =>
      { calls := [.createCall payload]
        diags := []
        state := some (mergeDeviceCreate plan created) }

/-- `DeviceResource.Read` (lines 293-393): call `GetDevice` keyed by the
stored id; on `ErrNotFound` remove the resource from state without error; on
any other error add a diagnostic and leave the state untouched; on success
merge the response into the state. -/
def deviceReadOp (remote : DeviceRemote) (st : DeviceResourceModel)
    (prior : Option DeviceResourceModel) : DeviceOpResult :=
  match remote.readResp st.id.valueString with
  | .error .notFound =>
      { calls := [.readCall st.id.valueString], diags := [], state := none }
  | .error e =>
      { calls := [.readCall st.id.valueString]
        diags := [⟨"Failed to read device", e.errString⟩]
        state := prior }
  | .ok device =>
      { calls := [.readCall st.id.valueString]
        diags := []
        state := some (mergeDeviceRead st device) }

/-- `DeviceResource.Update` (lines 395-599): build the payload from the plan,
call `UpdateDevice` keyed by the planned id. On `ErrNotFound`, call
`CreateDevice` once with the same payload; if that fails add the compound
diagnostic `Failed to create device (after 404 on update)` and leave the
state untouched, otherwise merge the created response (storing the id the
create returned). On any other error add `Failed to update device` and leave
the state untouched. On success merge the updated response. -/
def deviceUpdateOp (remote : DeviceRemote) (plan : DeviceResourceModel)
    (prior : Option DeviceResourceModel) : DeviceOpResult :=
  let payload := buildDevicePayload plan
  let staleId := plan.id.valueString
  match remote.updateResp staleId payload with
  | .error .notFound =>
      match remote.createResp payload with
      | .error e =>
          { calls := [.updateCall staleId payload, .createCall payload]
            diags := [⟨"Failed to create device (after 404 on update)", e.errString⟩]
            state := prior }
      | .ok created =>
          { calls := [.updateCall staleId payload, .createCall payload]
            diags := []
            state := some (mergeDeviceRecreate plan created) }
  | .error e =>
      { calls := [.updateCall staleId payload]
        diags := [⟨"Failed to update device", e.errString⟩]
        state := prior }
  | .ok updated =>
      { calls := [.updateCall staleId payload]
        diags := []
        state := some (mergeDeviceUpdate plan updated) }

/-- `DeviceResource.Delete` (lines 601-614): call `DeleteDevice`; every
non-nil error, `ErrNotFound` included, is surfaced as
`Failed to delete device` and the stored state is left untouched; only a nil
error lets the framework remove the resource from state. -/
def deviceDeleteOp (remote : DeviceRemote) (st : DeviceResourceModel)
    (prior : Option DeviceResourceModel) : DeviceOpResult :=
  match remote.deleteResp st.id.valueString with
  | some e =>
      { calls := [.deleteCall st.id.valueString]
        diags := [⟨"Failed to delete device", e.errString⟩]
        state := prior }
  | none =>
      { calls := [.deleteCall st.id.valueString], diags := [], state := none }

/-- `SiteResource.Read` (lines 135-170). -/
def siteReadOp (remote : SiteRemote) (st : SiteResourceModel)
    (prior : Option SiteResourceModel) : SiteOpResult :=
  match remote.readResp st.id.valueString with
  | .error .notFound =>
      { calls := [.readCall st.id.valueString], diags := [], state := none }
  | .error e =>
      { calls := [.readCall st.id.valueString]
        diags := [⟨"Failed to read site", e.errString⟩]
        state := prior }
  | .ok site =>
      { calls := [.readCall st.id.valueString]
        diags := []
        state := some (mergeSiteRead st site) }

/-- `SiteResource.Delete` (lines 231-244): like the device delete, every
non-nil error, `ErrNotFound` included, is surfaced as
`Failed to delete site` and the state is left untouched. -/
def siteDeleteOp (remote : SiteRemote) (st : SiteResourceModel)
    (prior : Option SiteResourceModel) : SiteOpResult :=
  match remote.deleteResp st.id.valueString with
  | some e =>
      { calls := [.deleteCall st.id.valueString]
        diags := [⟨"Failed to delete site", e.errString⟩]
        state := prior }
  | none =>
      { calls := [.deleteCall st.id.valueString], diags := [], state := none }

/-- Metadata of one schema attribute as declared in `DeviceResource.Schema`. -/
structure AttrSchema where
  required : Bool := false
  optional : Bool := false
  computed : Bool := false
  sensitive : Bool := false
  requiresReplace : Bool := false
  defaultBool : Option Bool := none
  defaultString : Option String := none
  defaultInt : Option Int := none
deriving DecidableEq, Repr

/-- The device schema (`device_resource.go` lines 57-156), attribute by
attribute: which are required/optional/computed/sensitive, which carry the
`RequiresReplace` plan modifier, and the declared static defaults. -/
def deviceSchema : List (String × AttrSchema) :=
  [ ("id", { computed := true })
  , ("site_id", { optional := true, computed := true, requiresReplace := true })
  , ("organization_id", { optional := true, computed := true, requiresReplace := true })
  , ("name", { optional := true, computed := true })
  , ("ip_address", { required := true })
  , ("description", { optional := true })
  , ("monitoring_enabled", { optional := true, computed := true, defaultBool := some true })
  , ("snmp_enabled", { optional := true, computed := true, defaultBool := some true })
  , ("snmp_version", { optional := true, computed := true, defaultString := some "2c" })
  , ("snmp_port", { optional := true, computed := true, defaultInt := some 161 })
  , ("snmpv3_security_level", { optional := true })
  , ("snmpv3_username", { optional := true })
  , ("snmpv3_auth_protocol", { optional := true })
  , ("snmpv3_auth_password", { optional := true, sensitive := true })
  , ("snmpv3_priv_protocol", { optional := true })
  , ("snmpv3_priv_password", { optional := true, sensitive := true })
  , ("inserted_at", { computed := true }) ]

/-- Schema lookup by attribute name. -/
def deviceAttr (name : String) : AttrSchema :=
  match deviceSchema.find? (fun p => p.1 == name) with
  | some p => p.2
  | none => {}

/-- The plugin framework applies each attribute's declared static default to a
configuration whose value for that attribute is null; this is the meaning of
the `Default:` entries of `DeviceResource.Schema` (lines 97-120), applied
during plan modification before `Create`/`Update` run. -/
def applyDeviceDefaults (c : DeviceResourceModel) : DeviceResourceModel :=
  { c with
    monitoringEnabled := match c.monitoringEnabled with
      | .null => .value true
      | v => v
    snmpEnabled := match c.snmpEnabled with
      | .null => .value true
      | v => v
    snmpVersion := match c.snmpVersion with
      | .null => .value "2c"
      | v => v
    snmpPort := match c.snmpPort with
      | .null => .value 161
      | v => v }

/-- Whether a device plan changes an attribute carrying the
`RequiresReplace` modifier (`site_id` or `organization_id`, per the schema). -/
def deviceParentChanged (st plan : DeviceResourceModel) : Bool :=
  (decide (st.siteID ≠ plan.siteID) && (deviceAttr "site_id").requiresReplace)
    || (decide (st.organizationID ≠ plan.organizationID)
        && (deviceAttr "organization_id").requiresReplace)

/-- The plugin framework's dispatch of a planned device change: when an
attribute flagged `RequiresReplace` differs between state and plan, the
change is executed as destroy-then-recreate (`Delete` of the old instance,
then `Create` with the new plan; the recreate is skipped when the delete
errored), never as an `Update`; otherwise `Update` runs. The dispatch itself
lives in the framework; its replace trigger is exactly the schema's
`RequiresReplace` flags. -/
def deviceApplyOp (remote : DeviceRemote) (st plan : DeviceResourceModel)
    (prior : Option DeviceResourceModel) : DeviceOpResult :=
  if deviceParentChanged st plan then
    let del := deviceDeleteOp remote st prior
    if del.diags.isEmpty then
      let cr := deviceCreateOp remote plan del.state
      { calls := del.calls ++ cr.calls, diags := cr.diags, state := cr.state }
    else del
  else deviceUpdateOp remote plan prior

/-- JSON values, as marshalled and unmarshalled by the Go client. -/
inductive Json where
  | str (s : String)
  | num (n : Int)
  | bool (b : Bool)
  | null
  | obj (fields : List (String × Json))

/-- Key lookup in an association list of JSON object fields. -/
def lookupField : List (String × Json) → String → Option Json
  | [], _ => none
  | (k, v) :: rest, key => if k == key then some v else lookupField rest key

/-- Key lookup in a JSON object; `none` on non-objects and missing keys. -/
def Json.lookup : Json → String → Option Json
  | .obj fields, key => lookupField fields key
  | _, _ => none

/-- Minimal rendering of a JSON value, standing in for the raw body bytes
interpolated into the fallback `API error` message. -/
def Json.render : Json → String
  | .str s => "\x22" ++ s ++ "\x22"
  | .num n => toString n
  | .bool b => toString b
  | .null => "null"
  | .obj fields => "\x7b" ++ String.intercalate ", " (renderFields fields) ++ "\x7d"
where
  /-- Render each field of an object. -/
  renderFields : List (String × Json) → List String
    | [] => []
    | (k, v) :: rest => ("\x22" ++ k ++ "\x22: " ++ v.render) :: renderFields rest

/-- Decode a `string` struct field as Go's `encoding/json` does: a missing or
null key leaves the zero value `""`, a string key gives its value, any other
type is a decode error. -/
def getStr (j : Json) (key : String) : Option String :=
  match j.lookup key with
  | none => some ""
  | some .null => some ""
  | some (.str s) => some s
  | some _ => none

/-- Decode a `*string` struct field: missing or null means `nil`. -/
def getOptStr (j : Json) (key : String) : Option (Option String) :=
  match j.lookup key with
  | none => some none
  | some .null => some none
  | some (.str s) => some (some s)
  | some _ => none

/-- Decode a `*bool` struct field. -/
def getOptBool (j : Json) (key : String) : Option (Option Bool) :=
  match j.lookup key with
  | none => some none
  | some .null => some none
  | some (.bool b) => some (some b)
  | some _ => none

/-- Decode a `*int` struct field. -/
def getOptInt (j : Json) (key : String) : Option (Option Int) :=
  match j.lookup key with
  | none => some none
  | some .null => some none
  | some (.num n) => some (some n)
  | some _ => none

/-- Marshal a `Site` per its struct tags (`id,omitempty`, `name`,
`location,omitempty`, `snmp_community,omitempty`, `inserted_at,omitempty`):
empty strings and nil pointers are omitted, field order follows the struct. -/
def Site.toJson (s : Site) : Json :=
  .obj ((if s.id = "" then [] else [("id", .str s.id)])
    ++ [("name", .str s.name)]
    ++ (match s.location with
        | some l => [("location", Json.str l)]
        | none => [])
    ++ (match s.snmpCommunity with
        | some c => [("snmp_community", Json.str c)]
        | none => [])
    ++ (if s.insertedAt = "" then [] else [("inserted_at", .str s.insertedAt)]))

/-- Unmarshal a `Site` from a response body as `json.Unmarshal(respBody,
&result)` does: the resource fields are read from the top level of the body,
with no envelope; missing keys keep zero values. -/
def Site.fromJson (j : Json) : Option Site :=
  match j with
  | .obj _ => do
      let id ← getStr j "id"
      let name ← getStr j "name"
      let location ← getOptStr j "location"
      let snmpCommunity ← getOptStr j "snmp_community"
      let insertedAt ← getStr j "inserted_at"
      pure { id := id, name := name, location := location,
             snmpCommunity := snmpCommunity, insertedAt := insertedAt }
  | _ => none

/-- Whether a JSON value is an object (Go's `Unmarshal` into a struct
errors on anything else). -/
def Json.isObj : Json → Bool
  | .obj _ => true
  | _ => false

/-- Marshal an optional (`omitempty` pointer) struct field: absent pointers
contribute no key. -/
def optField {α : Type} (key : String) (j : α → Json) : Option α → List (String × Json)
  | some a => [(key, j a)]
  | none => []

/-- Marshal a plain string field carrying `omitempty`: the zero value `""`
contributes no key. -/
def strOmitField (key : String) (s : String) : List (String × Json) :=
  if s = "" then [] else [(key, .str s)]

/-- The `Device` struct of the embedded client (`site_resource.go` lines
296-309), distinct from the richer payload used by `DeviceResource`:
`site_id` is a plain string without `omitempty`. -/
structure ClientDevice where
  id : String := ""
  siteID : String := ""
  name : Option String := none
  ipAddress : String := ""
  description : Option String := none
  monitoringEnabled : Option Bool := none
  snmpEnabled : Option Bool := none
  snmpVersion : Option String := none
  snmpPort : Option Int := none
  checkIntervalSeconds : Option Int := none
  insertedAt : String := ""
deriving DecidableEq, Repr

/-- Marshal a `ClientDevice` per its struct tags: `id,omitempty`, `site_id`
(always present), the pointer fields with `omitempty`, `ip_address` always
present, `inserted_at,omitempty`. -/
def ClientDevice.toJson (d : ClientDevice) : Json :=
  .obj (strOmitField "id" d.id
    ++ [("site_id", .str d.siteID)]
    ++ optField "name" Json.str d.name
    ++ [("ip_address", .str d.ipAddress)]
    ++ optField "description" Json.str d.description
    ++ optField "monitoring_enabled" Json.bool d.monitoringEnabled
    ++ optField "snmp_enabled" Json.bool d.snmpEnabled
    ++ optField "snmp_version" Json.str d.snmpVersion
    ++ optField "snmp_port" Json.num d.snmpPort
    ++ optField "check_interval_seconds" Json.num d.checkIntervalSeconds
    ++ strOmitField "inserted_at" d.insertedAt)

/-- Unmarshal a `ClientDevice` from the top level of a response body. -/
def ClientDevice.fromJson (j : Json) : Option ClientDevice :=
  if j.isObj then do
      let id ← getStr j "id"
      let siteID ← getStr j "site_id"
      let name ← getOptStr j "name"
      let ipAddress ← getStr j "ip_address"
      let description ← getOptStr j "description"
      let monitoringEnabled ← getOptBool j "monitoring_enabled"
      let snmpEnabled ← getOptBool j "snmp_enabled"
      let snmpVersion ← getOptStr j "snmp_version"
      let snmpPort ← getOptInt j "snmp_port"
      let checkIntervalSeconds ← getOptInt j "check_interval_seconds"
      let insertedAt ← getStr j "inserted_at"
      pure { id := id, siteID := siteID, name := name, ipAddress := ipAddress,
             description := description, monitoringEnabled := monitoringEnabled,
             snmpEnabled := snmpEnabled, snmpVersion := snmpVersion,
             snmpPort := snmpPort, checkIntervalSeconds := checkIntervalSeconds,
             insertedAt := insertedAt }
  else none

/-- The `APIError` struct decoded from non-2xx bodies. -/
structure APIError where
  error : String := ""
  errors : List (String × String) := []
deriving DecidableEq, Repr

/-- Decode a field-message map (`map[string]string`). -/
def getErrMap : Option Json → Option (List (String × String))
  | none => some []
  | some .null => some []
  | some (Json.obj fields) => collectErrMap fields
  | some _ => none
where
  /-- Every field value of the map must be a string. -/
  collectErrMap : List (String × Json) → Option (List (String × String))
    | [] => some []
    | (k, Json.str v) :: rest => (collectErrMap rest).map (fun tl => (k, v) :: tl)
    | _ :: _ => none

/-- Unmarshal an `APIError` from an error body. -/
def APIError.fromJson (j : Json) : Option APIError :=
  match j with
  | .obj _ => do
      let e ← getStr j "error"
      let errs ← getErrMap (j.lookup "errors")
      pure { error := e, errors := errs }
  | _ => none

/-- `Client.doRequest` status handling (`site_resource.go` lines 347-363):
a status of at least 400 is an error, with 404 mapped to the distinguished
`ErrNotFound` before any body decoding; other error statuses decode the body
as an `APIError`, preferring its single message, then its field map, then
the raw body; any status below 400 passes the body through unchanged. -/
def doRequest (status : Nat) (body : Json) : Except ClientErr Json :=
  if status ≥ 400 then
    if status == 404 then .error .notFound
    else
      match APIError.fromJson body with
      | some apiErr =>
          if apiErr.error ≠ "" then .error (.apiErr status apiErr.error)
          else if apiErr.errors ≠ [] then .error (.apiValidationErr status apiErr.errors)
          else .error (.apiRawErr status body.render)
      | none => .error (.apiRawErr status body.render)
  else .ok body

/-- Request body of `Client.CreateSite`: `map[string]Site{"site": site}`. -/
def createSiteRequestBody (s : Site) : Json :=
  .obj [("site", s.toJson)]

/-- Request body of `Client.UpdateSite`, identical in shape. -/
def updateSiteRequestBody (s : Site) : Json :=
  .obj [("site", s.toJson)]

/-- Request body of `Client.CreateDevice`:
`map[string]Device{"device": device}`. -/
def createDeviceRequestBody (d : ClientDevice) : Json :=
  .obj [("device", d.toJson)]

/-- Request body of `Client.UpdateDevice`, identical in shape. -/
def updateDeviceRequestBody (d : ClientDevice) : Json :=
  .obj [("device", d.toJson)]

/-- Success-body handling of `CreateSite`/`GetSite`/`UpdateSite`: unmarshal
the body directly into `Site`; failure is the unmarshal error. -/
def parseSiteResponse (body : Json) : Except ClientErr Site :=
  match Site.fromJson body with
  | some s => .ok s
  | none => .error (.decodeErr "failed to unmarshal response")

/-- Success-body handling of `CreateDevice`/`GetDevice`/`UpdateDevice`. -/
def parseDeviceResponse (body : Json) : Except ClientErr ClientDevice :=
  match ClientDevice.fromJson body with
  | some d => .ok d
  | none => .error (.decodeErr "failed to unmarshal response")

/-! ## Sample data used by witnesses and counterexamples -/

/-- A bound device plan with id `D1`. -/
def samplePlan : DeviceResourceModel :=
  { id := .value "D1", siteID := .value "site-123",
    ipAddress := .value "192.168.1.2",
    monitoringEnabled := .value true, snmpEnabled := .value true,
    snmpVersion := .value "2c", snmpPort := .value 161,
    insertedAt := .value "2024-01-01T00:00:00Z" }

/-- The device the server returns from the secondary create. -/
def sampleCreated : Device :=
  { id := "new-device-id", siteID := some "site-123",
    name := some "Auto-discovered Device", ipAddress := "192.168.1.2",
    monitoringEnabled := some true, snmpEnabled := some true,
    snmpVersion := some "2c", snmpPort := some 161,
    insertedAt := "2024-01-02T00:00:00Z" }

/-- A remote whose update target has vanished (update answers 404) and whose
create succeeds with `sampleCreated`. -/
def vanishedRemote : DeviceRemote :=
  { createResp := fun _ => .ok sampleCreated
    readResp := fun _ => .error .notFound
    updateResp := fun _ _ => .error .notFound
    deleteResp := fun _ => none }

/-- A remote that answers 404 to every call, delete included. -/
def goneRemote : DeviceRemote :=
  { createResp := fun _ => .error .notFound
    readResp := fun _ => .error .notFound
    updateResp := fun _ _ => .error .notFound
    deleteResp := fun _ => some .notFound }

/-- Count the create calls in a trace. -/
def countCreateCalls (calls : List Call) : Nat :=
  calls.countP fun c => match c with
    | .createCall _ => true
    | _ => false

/-- A bound device state used by the delete counterexample. -/
def boundState : DeviceResourceModel :=
  { id := .value "device-1", siteID := .value "site-1",
    ipAddress := .value "10.0.0.1" }

/-- A device plan declaring both parent references at once. -/
def bothParentsPlan : DeviceResourceModel :=
  { siteID := .value "site-A", organizationID := .value "org-B",
    ipAddress := .value "10.0.0.5",
    monitoringEnabled := .value true, snmpEnabled := .value true,
    snmpVersion := .value "2c", snmpPort := .value 161 }

/-- A device plan with explicit declared values for the defaulted fields. -/
def declaredPlan : DeviceResourceModel :=
  { siteID := .value "site-123", ipAddress := .value "192.168.1.1",
    description := .value "declared description",
    monitoringEnabled := .value true, snmpEnabled := .value true,
    snmpVersion := .value "2c", snmpPort := .value 161 }

/-- A create response in which the server echoed different values for the
defaulted fields. -/
def serverEcho : Device :=
  { id := "dev-9", siteID := some "site-123", name := some "Auto Device",
    ipAddress := "192.168.1.1", description := some "server description",
    monitoringEnabled := some true, snmpEnabled := some true,
    snmpVersion := some "1", snmpPort := some 162,
    insertedAt := "2024-01-01T00:00:00Z" }

/-- A remote whose create echoes `serverEcho`. -/
def echoRemote : DeviceRemote :=
  { createResp := fun _ => .ok serverEcho
    readResp := fun _ => .error .notFound
    updateResp := fun _ _ => .error .notFound
    deleteResp := fun _ => none }

/-- A cached bound device state with non-default SNMP settings. -/
def cachedState : DeviceResourceModel :=
  { id := .value "device-7", siteID := .value "site-123",
    ipAddress := .value "10.1.1.1", description := .value "old description",
    monitoringEnabled := .value false, snmpEnabled := .value false,
    snmpVersion := .value "3", snmpPort := .value 9999,
    insertedAt := .value "2024-01-01T00:00:00Z" }

/-- A read response that omits the monitoring and SNMP fields. -/
def sparseReadResp : Device :=
  { id := "device-7", siteID := some "site-123",
    name := some "Device Seven", ipAddress := "10.1.1.1",
    insertedAt := "2024-01-01T00:00:00Z" }

/-- A remote whose read returns `sparseReadResp`. -/
def sparseRemote : DeviceRemote :=
  { createResp := fun _ => .error .notFound
    readResp := fun _ => .ok sparseReadResp
    updateResp := fun _ _ => .error .notFound
    deleteResp := fun _ => none }

/-- A device declaration leaving the four defaulted attributes absent. -/
def minimalConfig : DeviceResourceModel :=
  { siteID := .value "S1", ipAddress := .value "192.168.1.1" }

/-- A plan moving the bound device `boundState` from `site-1` to `site-2`. -/
def movedPlan : DeviceResourceModel :=
  { id := .value "device-1", siteID := .value "site-2",
    ipAddress := .value "10.0.0.1" }

/-- A remote failing every call with a 500-style API error. -/
def failingRemote : DeviceRemote :=
  { createResp := fun _ => .error (.apiErr 500 "boom")
    readResp := fun _ => .error (.apiErr 500 "boom")
    updateResp := fun _ _ => .error (.apiErr 500 "boom")
    deleteResp := fun _ => some (.apiErr 500 "boom") }

/-- Whether a JSON value is an object with a single key of the given name
wrapping an object of fields. -/
def isSingleKeyEnvelope (kind : String) : Json → Bool
  | .obj [(k, .obj _)] => k == kind
  | _ => false

/-- An unwrapped success body, fields at the top level, as the server
returns them. -/
def unwrappedSiteBody : Json :=
  .obj [("id", Json.str "site-123"), ("name", Json.str "Test Site"),
        ("inserted_at", Json.str "2024-01-01T00:00:00Z")]

/-! ## C1: recreate-on-missing during update -/

/-- Claim C1: for a bound device, when the remote update call returns
NotFound the engine performs exactly one create call carrying the same
payload as the update, stores the id returned by that create together with
the returned `inserted_at` and the server-echoed fields (never keeping the
stale id when the create returned a different one), and when that secondary
create fails it reports the distinct compound diagnostic
`Failed to create device (after 404 on update)` rather than the generic
`Failed to update device`. -/
theorem deviceUpdate_recreates_on_notFound
    (remote : DeviceRemote) (plan : DeviceResourceModel)
    (prior : Option DeviceResourceModel)
    (hupd : remote.updateResp plan.id.valueString (buildDevicePayload plan)
      = .error .notFound) :
    (∀ created, remote.createResp (buildDevicePayload plan) = .ok created →
      (deviceUpdateOp remote plan prior).calls
          = [.updateCall plan.id.valueString (buildDevicePayload plan),
             .createCall (buildDevicePayload plan)]
        ∧ countCreateCalls (deviceUpdateOp remote plan prior).calls = 1
        ∧ (deviceUpdateOp remote plan prior).state
            = some (mergeDeviceRecreate plan created)
        ∧ (mergeDeviceRecreate plan created).id = .value created.id
        ∧ (mergeDeviceRecreate plan created).insertedAt = .value created.insertedAt
        ∧ (created.id ≠ plan.id.valueString →
            (mergeDeviceRecreate plan created).id ≠ .value plan.id.valueString))
    ∧ (∀ e, remote.createResp (buildDevicePayload plan) = .error e →
        (deviceUpdateOp remote plan prior).diags
            = [⟨"Failed to create device (after 404 on update)", e.errString⟩]
        ∧ (deviceUpdateOp remote plan prior).state = prior
        ∧ "Failed to create device (after 404 on update)"
            ≠ "Failed to update device") := by
  constructor
  · intro created hc
    refine ⟨?_, ?_, ?_, rfl, rfl, ?_⟩
    · simp [deviceUpdateOp, hupd, hc]
    · simp [deviceUpdateOp, hupd, hc, countCreateCalls, List.countP, List.countP.go]
    · simp [deviceUpdateOp, hupd, hc]
    · intro hne h
      exact hne (by simpa [mergeDeviceRecreate] using h)
  · intro e hc
    refine ⟨?_, ?_, by decide⟩
    · simp [deviceUpdateOp, hupd, hc]
    · simp [deviceUpdateOp, hupd, hc]

/-- Witness for C1 at a concrete bound device `D1` against a server whose
update answers 404 and whose create returns `new-device-id`. -/
theorem deviceUpdate_recreates_on_notFound_witness :
    (deviceUpdateOp vanishedRemote samplePlan (some samplePlan)).calls
        = [.updateCall "D1" (buildDevicePayload samplePlan),
           .createCall (buildDevicePayload samplePlan)]
      ∧ countCreateCalls (deviceUpdateOp vanishedRemote samplePlan (some samplePlan)).calls = 1
      ∧ (deviceUpdateOp vanishedRemote samplePlan (some samplePlan)).state
          = some (mergeDeviceRecreate samplePlan sampleCreated)
      ∧ (mergeDeviceRecreate samplePlan sampleCreated).id = .value "new-device-id" := by
  have h := (deviceUpdate_recreates_on_notFound vanishedRemote samplePlan
    (some samplePlan) rfl).1 sampleCreated rfl
  exact ⟨h.1, h.2.1, h.2.2.1, h.2.2.2.1⟩

/-! ## C2: NotFound on delete -/

/-- Counterexample to claim C2: deleting a device whose remote object is
already gone (the delete call returns NotFound) does not complete as
success — the engine reports `Failed to delete device: resource not found`
and the stored state is left in place, exactly as for any other error. -/
theorem deviceDelete_notFound_is_error :
    (deviceDeleteOp goneRemote boundState (some boundState)).diags
        = [⟨"Failed to delete device", "resource not found"⟩]
      ∧ (deviceDeleteOp goneRemote boundState (some boundState)).state
          = some boundState := by
  constructor <;> rfl

/-- Amended C2: Apply-Delete surfaces every delete error, NotFound included:
on any error the diagnostic `Failed to delete device` / `Failed to delete
site` is reported and the instance stays in state (remains Bound); only a
nil error completes as success, removing the instance (Destroyed). -/
theorem applyDelete_surfaces_every_error :
    (∀ (remote : DeviceRemote) (st : DeviceResourceModel)
        (prior : Option DeviceResourceModel) e,
      remote.deleteResp st.id.valueString = some e →
        (deviceDeleteOp remote st prior).diags
            = [⟨"Failed to delete device", e.errString⟩]
          ∧ (deviceDeleteOp remote st prior).state = prior)
    ∧ (∀ (remote : DeviceRemote) (st : DeviceResourceModel)
          (prior : Option DeviceResourceModel),
        remote.deleteResp st.id.valueString = none →
          (deviceDeleteOp remote st prior).diags = []
            ∧ (deviceDeleteOp remote st prior).state = none)
    ∧ (∀ (remote : SiteRemote) (st : SiteResourceModel)
          (prior : Option SiteResourceModel) e,
        remote.deleteResp st.id.valueString = some e →
          (siteDeleteOp remote st prior).diags
              = [⟨"Failed to delete site", e.errString⟩]
            ∧ (siteDeleteOp remote st prior).state = prior)
    ∧ (∀ (remote : SiteRemote) (st : SiteResourceModel)
          (prior : Option SiteResourceModel),
        remote.deleteResp st.id.valueString = none →
          (siteDeleteOp remote st prior).diags = []
            ∧ (siteDeleteOp remote st prior).state = none)
    ∧ (∀ body, doRequest 404 body = .error .notFound) := by
  refine ⟨?_, ?_, ?_, ?_, fun body => rfl⟩
  · intro remote st prior e h
    constructor <;> simp [deviceDeleteOp, h]
  · intro remote st prior h
    constructor <;> simp [deviceDeleteOp, h]
  · intro remote st prior e h
    constructor <;> simp [siteDeleteOp, h]
  · intro remote st prior h
    constructor <;> simp [siteDeleteOp, h]

/-- Witness for the amended C2: the concrete 404-on-delete call reports the
delete failure and keeps the bound state. -/
theorem applyDelete_surfaces_every_error_witness :
    (deviceDeleteOp goneRemote boundState (some boundState)).diags
        = [⟨"Failed to delete device", ClientErr.notFound.errString⟩]
      ∧ (deviceDeleteOp goneRemote boundState (some boundState)).state
          = some boundState :=
  applyDelete_surfaces_every_error.1 goneRemote boundState (some boundState)
    ClientErr.notFound rfl

/-! ## C3: no local validation of the parent references -/

/-- Counterexample to claim C3: a device declared with both `site_id` and
`organization_id` is not rejected locally — `Create` raises no field error,
builds a payload carrying both parent references, and issues the create
network call. -/
theorem deviceCreate_no_mutual_exclusion_check :
    (buildDevicePayload bothParentsPlan).siteID = some "site-A"
      ∧ (buildDevicePayload bothParentsPlan).organizationID = some "org-B"
      ∧ (deviceCreateOp vanishedRemote bothParentsPlan none).calls
          = [.createCall (buildDevicePayload bothParentsPlan)]
      ∧ (deviceCreateOp vanishedRemote bothParentsPlan none).diags = [] :=
  ⟨rfl, rfl, rfl, rfl⟩

/-- Amended C3: there is no local validation step: whenever both `site_id`
and `organization_id` are set, the create payload carries both parent
references, the create network call is always issued, and the only
diagnostic `Create` can raise is the remote create failure (no local field
error exists). -/
theorem deviceCreate_sends_both_parents
    (remote : DeviceRemote) (plan : DeviceResourceModel)
    (prior : Option DeviceResourceModel)
    (hsite : plan.siteID.isNull = false)
    (horg : plan.organizationID.isNull = false) :
    (buildDevicePayload plan).siteID = some plan.siteID.valueString
      ∧ (buildDevicePayload plan).organizationID
          = some plan.organizationID.valueString
      ∧ (deviceCreateOp remote plan prior).calls
          = [.createCall (buildDevicePayload plan)]
      ∧ ∀ d ∈ (deviceCreateOp remote plan prior).diags,
          d.summary = "Failed to create device" := by
  refine ⟨?_, ?_, ?_, ?_⟩
  · simp [buildDevicePayload, hsite]
  · simp [buildDevicePayload, horg]
  · cases h : remote.createResp (buildDevicePayload plan) <;>
      simp [deviceCreateOp, h]
  · cases h : remote.createResp (buildDevicePayload plan) <;>
      simp [deviceCreateOp, h]

/-- Witness for the amended C3 at the concrete both-parents plan. -/
theorem deviceCreate_sends_both_parents_witness :
    (buildDevicePayload bothParentsPlan).siteID = some "site-A"
      ∧ (buildDevicePayload bothParentsPlan).organizationID = some "org-B"
      ∧ (deviceCreateOp goneRemote bothParentsPlan none).calls
          = [.createCall (buildDevicePayload bothParentsPlan)] := by
  have h := deviceCreate_sends_both_parents goneRemote bothParentsPlan none rfl rfl
  exact ⟨h.1, h.2.1, h.2.2.1⟩

/-! ## C4: which create-response fields reach canonical state -/

/-- Counterexample to claim C4: after a successful create, canonical state
does not reflect every server-supplied field — the server echoed
`snmp_port = 162`, `snmp_version = "1"` and a different `description`, yet
the stored state keeps the declared `161`, `"2c"` and description, so state
equals declared intent, not the server's view, on those fields. -/
theorem deviceCreate_keeps_declared_for_unechoed_fields :
    serverEcho.snmpPort = some 162
      ∧ ((deviceCreateOp echoRemote declaredPlan none).state.map
            fun m => m.snmpPort) = some (TF.value 161)
      ∧ serverEcho.snmpVersion = some "1"
      ∧ ((deviceCreateOp echoRemote declaredPlan none).state.map
            fun m => m.snmpVersion) = some (TF.value "2c")
      ∧ serverEcho.description = some "server description"
      ∧ ((deviceCreateOp echoRemote declaredPlan none).state.map
            fun m => m.description) = some (TF.value "declared description") :=
  ⟨rfl, rfl, rfl, rfl, rfl, rfl⟩

/-- Amended C4: after a successful create the canonical state stores the
returned `id` and `inserted_at`, takes `site_id`/`organization_id` from the
response (cleared when absent) and `name`, `monitoring_enabled`,
`snmp_enabled` from the response when present, while `ip_address`,
`description`, `snmp_version`, `snmp_port` (and the SNMPv3 attributes) keep
their declared values. -/
theorem deviceCreate_merge_spec
    (remote : DeviceRemote) (plan : DeviceResourceModel)
    (prior : Option DeviceResourceModel) (created : Device)
    (h : remote.createResp (buildDevicePayload plan) = .ok created) :
    (deviceCreateOp remote plan prior).state = some (mergeDeviceCreate plan created)
      ∧ (deviceCreateOp remote plan prior).diags = []
      ∧ (mergeDeviceCreate plan created).id = .value created.id
      ∧ (mergeDeviceCreate plan created).insertedAt = .value created.insertedAt
      ∧ (mergeDeviceCreate plan created).siteID
          = (match created.siteID with
             | some s => TF.value s
             | none => TF.null)
      ∧ (mergeDeviceCreate plan created).organizationID
          = (match created.organizationID with
             | some s => TF.value s
             | none => TF.null)
      ∧ (mergeDeviceCreate plan created).name
          = (match created.name with
             | some n => TF.value n
             | none => plan.name)
      ∧ (mergeDeviceCreate plan created).monitoringEnabled
          = (match created.monitoringEnabled with
             | some b => TF.value b
             | none => plan.monitoringEnabled)
      ∧ (mergeDeviceCreate plan created).snmpEnabled
          = (match created.snmpEnabled with
             | some b => TF.value b
             | none => plan.snmpEnabled)
      ∧ (mergeDeviceCreate plan created).ipAddress = plan.ipAddress
      ∧ (mergeDeviceCreate plan created).description = plan.description
      ∧ (mergeDeviceCreate plan created).snmpVersion = plan.snmpVersion
      ∧ (mergeDeviceCreate plan created).snmpPort = plan.snmpPort := by
  refine ⟨?_, ?_, rfl, rfl, rfl, rfl, rfl, rfl, rfl, rfl, rfl, rfl, rfl⟩
  · simp [deviceCreateOp, h]
  · simp [deviceCreateOp, h]

/-- Witness for the amended C4 at the concrete echoing server. -/
theorem deviceCreate_merge_spec_witness :
    (deviceCreateOp echoRemote declaredPlan none).state
        = some (mergeDeviceCreate declaredPlan serverEcho)
      ∧ (mergeDeviceCreate declaredPlan serverEcho).id = .value "dev-9"
      ∧ (mergeDeviceCreate declaredPlan serverEcho).snmpPort = TF.value 161 := by
  have h := deviceCreate_merge_spec echoRemote declaredPlan none serverEcho rfl
  exact ⟨h.1, h.2.2.1, (h.2.2.2.2.2.2.2.2.2.2.2.2).trans rfl⟩

/-! ## C5: what a successful refresh overwrites -/

/-- Counterexample to claim C5: on a successful device refresh, fields the
server omits are not all cleared — the response carries no
`monitoring_enabled`, `snmp_enabled`, `snmp_version` or `snmp_port`, yet the
refreshed state retains the previously cached `false`, `false`, `"3"`,
`9999` instead of clearing them. -/
theorem deviceRead_retains_omitted_fields :
    sparseReadResp.snmpPort = none
      ∧ ((deviceReadOp sparseRemote cachedState (some cachedState)).state.map
            fun m => m.snmpPort) = some (TF.value 9999)
      ∧ sparseReadResp.monitoringEnabled = none
      ∧ ((deviceReadOp sparseRemote cachedState (some cachedState)).state.map
            fun m => m.monitoringEnabled) = some (TF.value false)
      ∧ sparseReadResp.snmpVersion = none
      ∧ ((deviceReadOp sparseRemote cachedState (some cachedState)).state.map
            fun m => m.snmpVersion) = some (TF.value "3") :=
  ⟨rfl, rfl, rfl, rfl, rfl, rfl⟩

/-- Amended C5: a successful refresh overwrites every cached field except
the caller-held `id` with the server's value, clearing omitted optional
fields — except that, for devices, `monitoring_enabled`, `snmp_enabled`,
`snmp_version` and `snmp_port` are retained (not cleared) when the server
omits them; a site refresh clears every omitted optional field. -/
theorem refresh_merge_spec :
    (∀ (remote : DeviceRemote) (st : DeviceResourceModel)
        (prior : Option DeviceResourceModel) (device : Device),
      remote.readResp st.id.valueString = .ok device →
        (deviceReadOp remote st prior).state = some (mergeDeviceRead st device)
          ∧ (mergeDeviceRead st device).id = st.id
          ∧ (mergeDeviceRead st device).ipAddress = .value device.ipAddress
          ∧ (mergeDeviceRead st device).insertedAt = .value device.insertedAt
          ∧ (mergeDeviceRead st device).siteID
              = (match device.siteID with
                 | some s => TF.value s
                 | none => TF.null)
          ∧ (mergeDeviceRead st device).organizationID
              = (match device.organizationID with
                 | some s => TF.value s
                 | none => TF.null)
          ∧ (mergeDeviceRead st device).name
              = (match device.name with
                 | some n => TF.value n
                 | none => TF.null)
          ∧ (mergeDeviceRead st device).description
              = (match device.description with
                 | some s => TF.value s
                 | none => TF.null)
          ∧ (mergeDeviceRead st device).snmpv3SecurityLevel
              = (match device.snmpv3SecurityLevel with
                 | some s => TF.value s
                 | none => TF.null)
          ∧ (mergeDeviceRead st device).snmpv3Username
              = (match device.snmpv3Username with
                 | some s => TF.value s
                 | none => TF.null)
          ∧ (mergeDeviceRead st device).monitoringEnabled
              = (match device.monitoringEnabled with
                 | some b => TF.value b
                 | none => st.monitoringEnabled)
          ∧ (mergeDeviceRead st device).snmpEnabled
              = (match device.snmpEnabled with
                 | some b => TF.value b
                 | none => st.snmpEnabled)
          ∧ (mergeDeviceRead st device).snmpVersion
              = (match device.snmpVersion with
                 | some s => TF.value s
                 | none => st.snmpVersion)
          ∧ (mergeDeviceRead st device).snmpPort
              = (match device.snmpPort with
                 | some n => TF.value n
                 | none => st.snmpPort))
    ∧ (∀ (remote : SiteRemote) (st : SiteResourceModel)
          (prior : Option SiteResourceModel) (site : Site),
        remote.readResp st.id.valueString = .ok site →
          (siteReadOp remote st prior).state = some (mergeSiteRead st site)
            ∧ (mergeSiteRead st site).id = st.id
            ∧ (mergeSiteRead st site).name = .value site.name
            ∧ (mergeSiteRead st site).insertedAt = .value site.insertedAt
            ∧ (mergeSiteRead st site).location
                = (match site.location with
                   | some s => TF.value s
                   | none => TF.null)
            ∧ (mergeSiteRead st site).snmpCommunity
                = (match site.snmpCommunity with
                   | some s => TF.value s
                   | none => TF.null)) := by
  constructor
  · intro remote st prior device h
    refine ⟨?_, rfl, rfl, rfl, rfl, rfl, rfl, rfl, rfl, rfl, rfl, rfl, rfl, rfl⟩
    simp [deviceReadOp, h]
  · intro remote st prior site h
    refine ⟨?_, rfl, rfl, rfl, rfl, rfl⟩
    simp [siteReadOp, h]

/-- Witness for the amended C5 at the sparse read response. -/
theorem refresh_merge_spec_witness :
    (deviceReadOp sparseRemote cachedState (some cachedState)).state
        = some (mergeDeviceRead cachedState sparseReadResp)
      ∧ (mergeDeviceRead cachedState sparseReadResp).id = .value "device-7"
      ∧ (mergeDeviceRead cachedState sparseReadResp).snmpPort = TF.value 9999 := by
  have h := refresh_merge_spec.1 sparseRemote cachedState (some cachedState)
    sparseReadResp rfl
  refine ⟨h.1, h.2.1.trans rfl, ?_⟩
  have hp := h.2.2.2.2.2.2.2.2.2.2.2.2.2
  exact hp.trans rfl

/-! ## C8: refresh is idempotent -/

/-- The device read-merge is idempotent: merging the same response a second
time changes nothing. -/
theorem mergeDeviceRead_idem (s : DeviceResourceModel) (d : Device) :
    mergeDeviceRead (mergeDeviceRead s d) d = mergeDeviceRead s d := by
  cases hmon : d.monitoringEnabled <;> cases hsnmp : d.snmpEnabled <;>
    cases hver : d.snmpVersion <;> cases hport : d.snmpPort <;>
      simp [mergeDeviceRead, hmon, hsnmp, hver, hport]

/-- The site read-merge is idempotent. -/
theorem mergeSiteRead_idem (s : SiteResourceModel) (site : Site) :
    mergeSiteRead (mergeSiteRead s site) site = mergeSiteRead s site := by
  simp [mergeSiteRead]

/-- Claim C8: refreshing twice against the same fixed server response yields
the same canonical state as refreshing once, for devices and for sites: if
one refresh leaves the state at `s'`, a second refresh leaves it at `s'`. -/
theorem refresh_idempotent :
    (∀ (remote : DeviceRemote) (s s' : DeviceResourceModel),
      (deviceReadOp remote s (some s)).state = some s' →
        (deviceReadOp remote s' (some s')).state = some s')
    ∧ (∀ (remote : SiteRemote) (s s' : SiteResourceModel),
        (siteReadOp remote s (some s)).state = some s' →
          (siteReadOp remote s' (some s')).state = some s') := by
  constructor
  · intro remote s s' h
    unfold deviceReadOp at h
    cases hr : remote.readResp s.id.valueString with
    | error e =>
        cases e <;> rw [hr] at h <;> simp at h <;>
          · subst h
            unfold deviceReadOp
            rw [hr]
    | ok d =>
        rw [hr] at h
        simp at h
        subst h
        unfold deviceReadOp
        have hid : (mergeDeviceRead s d).id.valueString = s.id.valueString := rfl
        rw [hid, hr]
        simp [mergeDeviceRead_idem]
  · intro remote s s' h
    unfold siteReadOp at h
    cases hr : remote.readResp s.id.valueString with
    | error e =>
        cases e <;> rw [hr] at h <;> simp at h <;>
          · subst h
            unfold siteReadOp
            rw [hr]
    | ok site =>
        rw [hr] at h
        simp at h
        subst h
        unfold siteReadOp
        have hid : (mergeSiteRead s site).id.valueString = s.id.valueString := rfl
        rw [hid, hr]
        simp [mergeSiteRead_idem]

/-- Witness for C8: a second refresh after the sparse read leaves the state
exactly where the first refresh put it. -/
theorem refresh_idempotent_witness :
    (deviceReadOp sparseRemote (mergeDeviceRead cachedState sparseReadResp)
        (some (mergeDeviceRead cachedState sparseReadResp))).state
      = some (mergeDeviceRead cachedState sparseReadResp) :=
  refresh_idempotent.1 sparseRemote cachedState
    (mergeDeviceRead cachedState sparseReadResp) rfl

/-! ## C7: schema defaults reach the create payload -/

/-- Claim C7: when `monitoring_enabled`, `snmp_enabled`, `snmp_version` and
`snmp_port` are all absent from the declaration, the schema's declared
static defaults `(true, true, "2c", 161)` are applied, marking the four
attributes set before the payload is built, so the outgoing create payload
carries exactly those values. -/
theorem deviceDefaults_reach_create_payload
    (c : DeviceResourceModel)
    (h1 : c.monitoringEnabled = .null) (h2 : c.snmpEnabled = .null)
    (h3 : c.snmpVersion = .null) (h4 : c.snmpPort = .null) :
    (deviceAttr "monitoring_enabled").defaultBool = some true
      ∧ (deviceAttr "snmp_enabled").defaultBool = some true
      ∧ (deviceAttr "snmp_version").defaultString = some "2c"
      ∧ (deviceAttr "snmp_port").defaultInt = some 161
      ∧ (applyDeviceDefaults c).monitoringEnabled = .value true
      ∧ (applyDeviceDefaults c).snmpEnabled = .value true
      ∧ (applyDeviceDefaults c).snmpVersion = .value "2c"
      ∧ (applyDeviceDefaults c).snmpPort = .value 161
      ∧ (buildDevicePayload (applyDeviceDefaults c)).monitoringEnabled = some true
      ∧ (buildDevicePayload (applyDeviceDefaults c)).snmpEnabled = some true
      ∧ (buildDevicePayload (applyDeviceDefaults c)).snmpVersion = some "2c"
      ∧ (buildDevicePayload (applyDeviceDefaults c)).snmpPort = some 161 := by
  refine ⟨by decide, by decide, by decide, by decide, ?_, ?_, ?_, ?_, ?_, ?_, ?_, ?_⟩ <;>
    simp [applyDeviceDefaults, buildDevicePayload, h1, h2, h3, h4,
      TF.isNull, TF.valueBool, TF.valueString, TF.valueInt]

/-- Witness for C7 at the minimal declaration `{site_id, ip_address}`. -/
theorem deviceDefaults_reach_create_payload_witness :
    (buildDevicePayload (applyDeviceDefaults minimalConfig)).monitoringEnabled = some true
      ∧ (buildDevicePayload (applyDeviceDefaults minimalConfig)).snmpEnabled = some true
      ∧ (buildDevicePayload (applyDeviceDefaults minimalConfig)).snmpVersion = some "2c"
      ∧ (buildDevicePayload (applyDeviceDefaults minimalConfig)).snmpPort = some 161 := by
  have h := deviceDefaults_reach_create_payload minimalConfig rfl rfl rfl rfl
  exact ⟨h.2.2.2.2.2.2.2.2.1, h.2.2.2.2.2.2.2.2.2.1,
    h.2.2.2.2.2.2.2.2.2.2.1, h.2.2.2.2.2.2.2.2.2.2.2⟩

/-! ## C9: parent references force replacement -/

/-- Claim C9: `site_id` and `organization_id` carry the `RequiresReplace`
plan modifier in the device schema, so a declared change to either parent
reference is executed as destroy-then-recreate, and the changed value is
never sent to the server inside an update payload (the call trace of such a
change contains no update call at all). -/
theorem deviceParentChange_forces_replace :
    (deviceAttr "site_id").requiresReplace = true
      ∧ (deviceAttr "organization_id").requiresReplace = true
      ∧ ∀ (remote : DeviceRemote) (st plan : DeviceResourceModel)
          (prior : Option DeviceResourceModel),
          st.siteID ≠ plan.siteID ∨ st.organizationID ≠ plan.organizationID →
          ((deviceApplyOp remote st plan prior).calls.all fun c => !c.isUpdate)
            = true := by
  refine ⟨by decide, by decide, ?_⟩
  intro remote st plan prior h
  have hpc : deviceParentChanged st plan = true := by
    rcases h with h | h <;>
      simp [deviceParentChanged, deviceAttr, deviceSchema, h]
  cases hdel : remote.deleteResp st.id.valueString with
  | some e =>
      simp [deviceApplyOp, hpc, deviceDeleteOp, hdel, Call.isUpdate]
  | none =>
      cases hcr : remote.createResp (buildDevicePayload plan) with
      | error e =>
          simp [deviceApplyOp, hpc, deviceDeleteOp, hdel, deviceCreateOp, hcr,
            Call.isUpdate]
      | ok created =>
          simp [deviceApplyOp, hpc, deviceDeleteOp, hdel, deviceCreateOp, hcr,
            Call.isUpdate]

/-- Witness for C9: changing `site_id` from `site-1` to `site-2` on the
bound device produces a call trace without any update call. -/
theorem deviceParentChange_forces_replace_witness :
    ((deviceApplyOp vanishedRemote boundState movedPlan (some boundState)).calls.all
        fun c => !c.isUpdate) = true :=
  deviceParentChange_forces_replace.2.2 vanishedRemote boundState movedPlan
    (some boundState) (Or.inl (by decide))

/-! ## C10: no state write on a failed operation -/

/-- Claim C10: whenever a device create, update (including its secondary
create after a 404) or delete call fails with an error other than NotFound,
the operation reports a diagnostic and the stored canonical state is exactly
what it was before the operation. -/
theorem deviceOps_error_atomicity :
    (∀ (remote : DeviceRemote) (plan : DeviceResourceModel)
        (prior : Option DeviceResourceModel) e, e ≠ ClientErr.notFound →
      remote.createResp (buildDevicePayload plan) = .error e →
        (deviceCreateOp remote plan prior).state = prior
          ∧ (deviceCreateOp remote plan prior).diags ≠ [])
    ∧ (∀ (remote : DeviceRemote) (plan : DeviceResourceModel)
          (prior : Option DeviceResourceModel) e, e ≠ ClientErr.notFound →
        remote.updateResp plan.id.valueString (buildDevicePayload plan) = .error e →
          (deviceUpdateOp remote plan prior).state = prior
            ∧ (deviceUpdateOp remote plan prior).diags ≠ [])
    ∧ (∀ (remote : DeviceRemote) (plan : DeviceResourceModel)
          (prior : Option DeviceResourceModel) e,
        remote.updateResp plan.id.valueString (buildDevicePayload plan)
            = .error .notFound →
        remote.createResp (buildDevicePayload plan) = .error e →
          (deviceUpdateOp remote plan prior).state = prior
            ∧ (deviceUpdateOp remote plan prior).diags ≠ [])
    ∧ (∀ (remote : DeviceRemote) (st : DeviceResourceModel)
          (prior : Option DeviceResourceModel) e, e ≠ ClientErr.notFound →
        remote.deleteResp st.id.valueString = some e →
          (deviceDeleteOp remote st prior).state = prior
            ∧ (deviceDeleteOp remote st prior).diags ≠ []) := by
  refine ⟨?_, ?_, ?_, ?_⟩
  · intro remote plan prior e _ h
    constructor <;> simp [deviceCreateOp, h]
  · intro remote plan prior e hne h
    cases e <;> simp [deviceUpdateOp, h]
    exact absurd rfl hne
  · intro remote plan prior e hupd hcr
    constructor <;> simp [deviceUpdateOp, hupd, hcr]
  · intro remote st prior e _ h
    constructor <;> simp [deviceDeleteOp, h]

/-- Witness for C10: a 500 on update leaves the stored state untouched and
reports a diagnostic. -/
theorem deviceOps_error_atomicity_witness :
    (deviceUpdateOp failingRemote samplePlan (some samplePlan)).state
        = some samplePlan
      ∧ (deviceUpdateOp failingRemote samplePlan (some samplePlan)).diags ≠ [] :=
  deviceOps_error_atomicity.2.1 failingRemote samplePlan (some samplePlan)
    (.apiErr 500 "boom") (by decide) rfl

/-! ## C6: envelopes on requests, unwrapped responses -/

/-- Counterexample to claim C6: parsing a success response does not require
the single-key envelope — the unwrapped body parses into the populated
`Site`, while the same body wrapped in the `{"site": ...}` envelope parses
into an empty `Site` (the decoder reads the fields at the top level and
never looks inside an envelope). -/
theorem siteResponse_parses_without_envelope :
    parseSiteResponse unwrappedSiteBody
        = .ok { id := "site-123", name := "Test Site",
                insertedAt := "2024-01-01T00:00:00Z" }
      ∧ parseSiteResponse (Json.obj [("site", unwrappedSiteBody)])
        = .ok ({} : Site) :=
  ⟨rfl, rfl⟩

/-- Marshalling then unmarshalling a `Site` at the top level is the
identity: the decoder consumes exactly the unwrapped field map the server
sends. -/
theorem siteFromJson_toJson (s : Site) : Site.fromJson (Site.toJson s) = some s := by
  obtain ⟨id, name, loc, comm, ins⟩ := s
  rcases loc with _ | l <;> rcases comm with _ | c <;>
    by_cases hid : id = "" <;> by_cases hins : ins = "" <;>
      simp [Site.toJson, Site.fromJson, getStr, getOptStr, Json.lookup,
        lookupField, hid, hins]

/-- Field lookup distributes over appended field lists, first hit wins. -/
theorem lookupField_append (xs ys : List (String × Json)) (key : String) :
    lookupField (xs ++ ys) key
      = (match lookupField xs key with
         | some v => some v
         | none => lookupField ys key) := by
  induction xs with
  | nil => simp [lookupField]
  | cons p rest ih =>
      obtain ⟨k, v⟩ := p
      cases h : (k == key) <;> simp [lookupField, h, ih]

/-- An optional field segment holds no other key. -/
theorem lookupField_optField_ne {α : Type} (k key : String) (j : α → Json)
    (o : Option α) (h : (k == key) = false) :
    lookupField (optField k j o) key = none := by
  cases o <;> simp [optField, lookupField, h]

/-- Looking up an optional field segment at its own key yields the mapped
value when present. -/
theorem lookupField_optField_self {α : Type} (k : String) (j : α → Json)
    (o : Option α) :
    lookupField (optField k j o) k = o.map j := by
  cases o <;> simp [optField, lookupField]

/-- An omitempty string segment holds no other key. -/
theorem lookupField_strOmitField_ne (k key s : String) (h : (k == key) = false) :
    lookupField (strOmitField k s) key = none := by
  unfold strOmitField
  split <;> simp [lookupField, h]

/-- Looking up an omitempty string segment at its own key. -/
theorem lookupField_strOmitField_self (k s : String) :
    lookupField (strOmitField k s) k
      = if s = "" then none else some (.str s) := by
  unfold strOmitField
  split <;> simp [lookupField]

/-- A marshalled `ClientDevice` is a JSON object. -/
theorem clientDevice_toJson_isObj (d : ClientDevice) :
    (ClientDevice.toJson d).isObj = true := rfl

/-- Decoding `id` back from a marshalled `ClientDevice`. -/
theorem clientDevice_getStr_id (d : ClientDevice) :
    getStr (ClientDevice.toJson d) "id" = some d.id := by
  by_cases h : d.id = "" <;>
    simp [getStr, ClientDevice.toJson, Json.lookup, lookupField_append,
      lookupField_optField_ne, lookupField_strOmitField_ne,
      lookupField_strOmitField_self, lookupField, h]

/-- Decoding `site_id` back from a marshalled `ClientDevice`. -/
theorem clientDevice_getStr_siteID (d : ClientDevice) :
    getStr (ClientDevice.toJson d) "site_id" = some d.siteID := by
  simp [getStr, ClientDevice.toJson, Json.lookup, lookupField_append,
    lookupField_optField_ne, lookupField_strOmitField_ne, lookupField]

/-- Decoding `ip_address` back from a marshalled `ClientDevice`. -/
theorem clientDevice_getStr_ipAddress (d : ClientDevice) :
    getStr (ClientDevice.toJson d) "ip_address" = some d.ipAddress := by
  simp [getStr, ClientDevice.toJson, Json.lookup, lookupField_append,
    lookupField_optField_ne, lookupField_strOmitField_ne, lookupField]

/-- Decoding `inserted_at` back from a marshalled `ClientDevice`. -/
theorem clientDevice_getStr_insertedAt (d : ClientDevice) :
    getStr (ClientDevice.toJson d) "inserted_at" = some d.insertedAt := by
  by_cases h : d.insertedAt = "" <;>
    simp [getStr, ClientDevice.toJson, Json.lookup, lookupField_append,
      lookupField_optField_ne, lookupField_strOmitField_ne,
      lookupField_strOmitField_self, lookupField, h]

/-- Decoding `name` back from a marshalled `ClientDevice`. -/
theorem clientDevice_getOptStr_name (d : ClientDevice) :
    getOptStr (ClientDevice.toJson d) "name" = some d.name := by
  cases h : d.name <;>
    simp [getOptStr, ClientDevice.toJson, Json.lookup, lookupField_append,
      lookupField_optField_ne, lookupField_optField_self,
      lookupField_strOmitField_ne, lookupField, h]

/-- Decoding `description` back from a marshalled `ClientDevice`. -/
theorem clientDevice_getOptStr_description (d : ClientDevice) :
    getOptStr (ClientDevice.toJson d) "description" = some d.description := by
  cases h : d.description <;>
    simp [getOptStr, ClientDevice.toJson, Json.lookup, lookupField_append,
      lookupField_optField_ne, lookupField_optField_self,
      lookupField_strOmitField_ne, lookupField, h]

/-- Decoding `snmp_version` back from a marshalled `ClientDevice`. -/
theorem clientDevice_getOptStr_snmpVersion (d : ClientDevice) :
    getOptStr (ClientDevice.toJson d) "snmp_version" = some d.snmpVersion := by
  cases h : d.snmpVersion <;>
    simp [getOptStr, ClientDevice.toJson, Json.lookup, lookupField_append,
      lookupField_optField_ne, lookupField_optField_self,
      lookupField_strOmitField_ne, lookupField, h]

/-- Decoding `monitoring_enabled` back from a marshalled `ClientDevice`. -/
theorem clientDevice_getOptBool_monitoringEnabled (d : ClientDevice) :
    getOptBool (ClientDevice.toJson d) "monitoring_enabled"
      = some d.monitoringEnabled := by
  cases h : d.monitoringEnabled <;>
    simp [getOptBool, ClientDevice.toJson, Json.lookup, lookupField_append,
      lookupField_optField_ne, lookupField_optField_self,
      lookupField_strOmitField_ne, lookupField, h]

/-- Decoding `snmp_enabled` back from a marshalled `ClientDevice`. -/
theorem clientDevice_getOptBool_snmpEnabled (d : ClientDevice) :
    getOptBool (ClientDevice.toJson d) "snmp_enabled" = some d.snmpEnabled := by
  cases h : d.snmpEnabled <;>
    simp [getOptBool, ClientDevice.toJson, Json.lookup, lookupField_append,
      lookupField_optField_ne, lookupField_optField_self,
      lookupField_strOmitField_ne, lookupField, h]

/-- Decoding `snmp_port` back from a marshalled `ClientDevice`. -/
theorem clientDevice_getOptInt_snmpPort (d : ClientDevice) :
    getOptInt (ClientDevice.toJson d) "snmp_port" = some d.snmpPort := by
  cases h : d.snmpPort <;>
    simp [getOptInt, ClientDevice.toJson, Json.lookup, lookupField_append,
      lookupField_optField_ne, lookupField_optField_self,
      lookupField_strOmitField_ne, lookupField, h]

/-- Decoding `check_interval_seconds` back from a marshalled
`ClientDevice`. -/
theorem clientDevice_getOptInt_checkIntervalSeconds (d : ClientDevice) :
    getOptInt (ClientDevice.toJson d) "check_interval_seconds"
      = some d.checkIntervalSeconds := by
  cases h : d.checkIntervalSeconds <;>
    simp [getOptInt, ClientDevice.toJson, Json.lookup, lookupField_append,
      lookupField_optField_ne, lookupField_optField_self,
      lookupField_strOmitField_ne, lookupField, h]

/-- Marshalling then unmarshalling a `ClientDevice` at the top level is the
identity. -/
theorem clientDeviceFromJson_toJson (d : ClientDevice) :
    ClientDevice.fromJson (ClientDevice.toJson d) = some d := by
  simp [ClientDevice.fromJson, clientDevice_toJson_isObj,
    clientDevice_getStr_id, clientDevice_getStr_siteID,
    clientDevice_getStr_ipAddress, clientDevice_getStr_insertedAt,
    clientDevice_getOptStr_name, clientDevice_getOptStr_description,
    clientDevice_getOptStr_snmpVersion, clientDevice_getOptBool_monitoringEnabled,
    clientDevice_getOptBool_snmpEnabled, clientDevice_getOptInt_snmpPort,
    clientDevice_getOptInt_checkIntervalSeconds]

/-- Amended C6: every create/update request body is a JSON object with a
single top-level key naming the resource kind wrapping the field map, while
success response bodies are parsed unwrapped: the decoder reads the resource
fields at the top level of the body (no envelope), and unmarshalling an
unwrapped field map recovers the resource exactly. -/
theorem client_envelope_spec :
    (∀ s : Site,
      isSingleKeyEnvelope "site" (createSiteRequestBody s) = true
        ∧ isSingleKeyEnvelope "site" (updateSiteRequestBody s) = true
        ∧ parseSiteResponse (Site.toJson s) = .ok s)
    ∧ (∀ d : ClientDevice,
        isSingleKeyEnvelope "device" (createDeviceRequestBody d) = true
          ∧ isSingleKeyEnvelope "device" (updateDeviceRequestBody d) = true
          ∧ parseDeviceResponse (ClientDevice.toJson d) = .ok d) := by
  constructor
  · intro s
    refine ⟨?_, ?_, ?_⟩
    · simp [createSiteRequestBody, Site.toJson, isSingleKeyEnvelope]
    · simp [updateSiteRequestBody, Site.toJson, isSingleKeyEnvelope]
    · simp [parseSiteResponse, siteFromJson_toJson]
  · intro d
    refine ⟨?_, ?_, ?_⟩
    · simp [createDeviceRequestBody, ClientDevice.toJson, isSingleKeyEnvelope]
    · simp [updateDeviceRequestBody, ClientDevice.toJson, isSingleKeyEnvelope]
    · simp [parseDeviceResponse, clientDeviceFromJson_toJson]

end TowerOps
